import Mathlib

/-!
Verification of the video assembly pipeline in src/dogs_git.py
(function generate_video_with_music and its helpers), checked against the
natural language specification of the repository.

The embedding models:
- the rotation cursor state file (read, parse with Python int semantics,
  advance modulo the asset count, write back as a decimal string);
- the directory listing, filtering and lexicographic sorting that build
  the background asset list;
- the run pipeline of generate_video_with_music as a step function over a
  media environment, with an event trace recording handle opens, handle
  closes, the cursor write, the render attempt and output completion;
- the moviepy clip operations used by the source (set_duration, loop,
  subclip, resize, crop, concatenate) as functions on clip records that
  carry width, height, duration and a time mapping back into the source
  material, with audio tracks carried as sample functions.
-/

namespace DogsVid

/-! ## Decimal digits and Python int parsing

The state file last_video_index.txt is read with
  last_index = int(f.read() or -1)
guarded by except (ValueError, TypeError): last_index = -1
(src/dogs_git.py lines 200 to 207). We model the file content as an
Option String (none meaning the file is absent) and Python int() on an
ASCII decimal literal: strip surrounding whitespace, an optional single
sign, then a nonempty run of decimal digits. -/

/-- Decimal digit character for a value below ten. -/
def digitChar (d : Nat) : Char :=
  if d = 0 then '0' else if d = 1 then '1' else if d = 2 then '2'
  else if d = 3 then '3' else if d = 4 then '4' else if d = 5 then '5'
  else if d = 6 then '6' else if d = 7 then '7' else if d = 8 then '8'
  else '9'

/-- Numeric value of a decimal digit character, none for other characters. -/
def digitVal (c : Char) : Option Nat :=
  if 48 ≤ c.toNat ∧ c.toNat ≤ 57 then some (c.toNat - 48) else none

/-- Accumulating parser over a run of decimal digit characters. -/
def parseDigitsAux : Nat → List Char → Option Nat
  | acc, [] => some acc
  | acc, c :: cs =>
    match digitVal c with
    | some d => parseDigitsAux (acc * 10 + d) cs
    | none => none

/-- Parser for a nonempty run of decimal digit characters. -/
def parseDigits (cs : List Char) : Option Nat :=
  match cs with
  | [] => none
  | _ :: _ => parseDigitsAux 0 cs

/-- Whitespace characters stripped by Python int() from a string argument. -/
def isPyWhitespace (c : Char) : Bool :=
  (c == ' ') || (c == '\t') || (c == '\n') || (c == '\r') ||
    (c == Char.ofNat 11) || (c == Char.ofNat 12)

/-- Strip leading and trailing whitespace, as Python int() does before
parsing a string argument. -/
def pyStrip (cs : List Char) : List Char :=
  ((cs.dropWhile isPyWhitespace).reverse.dropWhile isPyWhitespace).reverse

/-- Python int() on an ASCII decimal string literal: strip whitespace, an
optional single sign, then a nonempty digit run; none models the
ValueError raised on any other content. -/
def pyIntParse (s : String) : Option Int :=
  match pyStrip s.data with
  | [] => none
  | c :: rest =>
    if c = '-' then (parseDigits rest).map fun n => -(n : Int)
    else if c = '+' then (parseDigits rest).map fun n => (n : Int)
    else (parseDigits (c :: rest)).map fun n => (n : Int)

/-- Reading the rotation cursor, src/dogs_git.py lines 200 to 207: -1 when
the file is absent; int(content or -1) with ValueError and TypeError
mapped to -1 otherwise, so an empty file and unparseable content also
give -1. Total by construction, so none of these conditions can raise. -/
def readCursor (content : Option String) : Int :=
  match content with
  | none => -1
  | some s =>
    if s = "" then -1
    else
      match pyIntParse s with
      | some n => n
      | none => -1

/-- Decimal character list of a natural number, driven by fuel so that the
recursion is structural; with fuel above n this is the standard decimal
expansion, most significant digit first. -/
def natDecimalAux : Nat → Nat → List Char
  | 0, _ => []
  | fuel + 1, n =>
    if n < 10 then [digitChar n]
    else natDecimalAux fuel (n / 10) ++ [digitChar (n % 10)]

/-- Decimal character list of a natural number. -/
def natDecimal (n : Nat) : List Char :=
  natDecimalAux (n + 1) n

/-- Python str(int), as written to the state file at line 212. -/
def intSerialize (n : Int) : String :=
  if n < 0 then String.mk ('-' :: natDecimal n.natAbs)
  else String.mk (natDecimal n.toNat)

theorem digitVal_digitChar : ∀ d, d < 10 → digitVal (digitChar d) = some d := by
  decide

theorem digitChar_not_ws : ∀ d, d < 10 → isPyWhitespace (digitChar d) = false := by
  decide

theorem digitChar_ne_dash : ∀ d, d < 10 → digitChar d ≠ '-' := by
  decide

theorem digitChar_ne_plus : ∀ d, d < 10 → digitChar d ≠ '+' := by
  decide

theorem parseDigitsAux_append (xs ys : List Char) :
    ∀ acc, parseDigitsAux acc (xs ++ ys) =
      (parseDigitsAux acc xs).bind fun a => parseDigitsAux a ys := by
  induction xs with
  | nil => intro acc; rfl
  | cons c cs ih =>
    intro acc
    simp only [List.cons_append, parseDigitsAux]
    cases h : digitVal c with
    | none => simp [h]
    | some d => simp [h, ih]

theorem parseDigitsAux_natDecimalAux :
    ∀ fuel n acc, n < fuel →
      ∃ k, parseDigitsAux acc (natDecimalAux fuel n) = some (acc * 10 ^ k + n) := by
  intro fuel
  induction fuel with
  | zero => intro n acc h; omega
  | succ fuel ih =>
    intro n acc h
    by_cases hn : n < 10
    · refine ⟨1, ?_⟩
      simp only [natDecimalAux, if_pos hn, parseDigitsAux, digitVal_digitChar n hn]
      norm_num
    · have hdiv : n / 10 < fuel := by omega
      obtain ⟨k, hk⟩ := ih (n / 10) acc hdiv
      refine ⟨k + 1, ?_⟩
      simp only [natDecimalAux, if_neg hn, parseDigitsAux_append, hk, Option.some_bind,
        parseDigitsAux, digitVal_digitChar (n % 10) (by omega)]
      have heq : (acc * 10 ^ k + n / 10) * 10 + n % 10 = acc * 10 ^ (k + 1) + n := by
        have := Nat.div_add_mod n 10
        ring_nf
        omega
      rw [heq]

theorem natDecimalAux_ne_nil : ∀ fuel n, 0 < fuel → natDecimalAux fuel n ≠ [] := by
  intro fuel n h
  cases fuel with
  | zero => omega
  | succ fuel =>
    simp only [natDecimalAux]
    split
    · simp
    · simp

theorem natDecimal_ne_nil (n : Nat) : natDecimal n ≠ [] :=
  natDecimalAux_ne_nil (n + 1) n (by omega)

theorem mem_natDecimalAux :
    ∀ fuel n c, n < fuel → c ∈ natDecimalAux fuel n → ∃ d, d < 10 ∧ c = digitChar d := by
  intro fuel
  induction fuel with
  | zero => intro n c h; omega
  | succ fuel ih =>
    intro n c h hc
    by_cases hn : n < 10
    · simp only [natDecimalAux, if_pos hn, List.mem_singleton] at hc
      exact ⟨n, hn, hc⟩
    · simp only [natDecimalAux, if_neg hn, List.mem_append, List.mem_singleton] at hc
      rcases hc with hc | hc
      · exact ih (n / 10) c (by omega) hc
      · exact ⟨n % 10, by omega, hc⟩

theorem mem_natDecimal (n : Nat) (c : Char) (hc : c ∈ natDecimal n) :
    ∃ d, d < 10 ∧ c = digitChar d :=
  mem_natDecimalAux (n + 1) n c (by omega) hc

theorem parseDigits_natDecimal (n : Nat) : parseDigits (natDecimal n) = some n := by
  obtain ⟨k, hk⟩ := parseDigitsAux_natDecimalAux (n + 1) n 0 (by omega)
  have h1 : parseDigitsAux 0 (natDecimal n) = some n := by
    unfold natDecimal
    rw [hk]
    norm_num
  unfold parseDigits
  split
  · rename_i heq
    exact absurd heq (natDecimal_ne_nil n)
  · exact h1

theorem dropWhile_eq_self_of_not (p : Char → Bool) (l : List Char)
    (h : ∀ c ∈ l, p c = false) : l.dropWhile p = l := by
  cases l with
  | nil => rfl
  | cons c cs =>
    rw [List.dropWhile_cons, h c (List.mem_cons_self c cs)]
    simp

theorem pyStrip_eq_self (cs : List Char) (h : ∀ c ∈ cs, isPyWhitespace c = false) :
    pyStrip cs = cs := by
  unfold pyStrip
  rw [dropWhile_eq_self_of_not _ cs h,
    dropWhile_eq_self_of_not _ cs.reverse (fun c hc => h c (List.mem_reverse.mp hc)),
    List.reverse_reverse]

theorem pyIntParse_natDecimal (n : Nat) :
    pyIntParse (String.mk (natDecimal n)) = some (n : Int) := by
  have hdata : (String.mk (natDecimal n)).data = natDecimal n := rfl
  have hstrip : pyStrip (natDecimal n) = natDecimal n :=
    pyStrip_eq_self _ (fun c hc => by
      obtain ⟨d, hd, rfl⟩ := mem_natDecimal n c hc
      exact digitChar_not_ws d hd)
  unfold pyIntParse
  rw [hdata, hstrip]
  split
  · rename_i heq
    exact absurd heq (natDecimal_ne_nil n)
  · rename_i c rest heq
    obtain ⟨d, hd, hcd⟩ := mem_natDecimal n c (heq ▸ List.mem_cons_self c rest)
    subst hcd
    rw [if_neg (digitChar_ne_dash d hd), if_neg (digitChar_ne_plus d hd), ← heq,
      parseDigits_natDecimal]
    rfl

theorem natDecimal_head_not_empty (n : Nat) : String.mk (natDecimal n) ≠ "" := by
  intro h
  have : natDecimal n = [] := by
    have := congrArg String.data h
    simpa using this
  exact natDecimal_ne_nil n this

theorem readCursor_intSerialize (m : Int) (hm : 0 ≤ m) :
    readCursor (some (intSerialize m)) = m := by
  have hser : intSerialize m = String.mk (natDecimal m.toNat) := by
    unfold intSerialize
    rw [if_neg (by omega)]
  rw [hser]
  simp only [readCursor]
  rw [if_neg (natDecimal_head_not_empty m.toNat), pyIntParse_natDecimal]
  simp [Int.toNat_of_nonneg hm]

/-! ## Cursor advance and background selection

Lines 199 to 213 of src/dogs_git.py: read the cursor, compute
next_index = (last_index + 1) % len(available_videos), select
available_videos[next_index], and write str(next_index) back to the
state file. Python modulo with a positive modulus agrees with Int.emod. -/

/-- One selection step over the state file content: returns the selected
index and the new state file content. The write of str(next_index)
happens inside the step, before the step returns. -/
def selectStep (count : Nat) (st : Option String) : Int × Option String :=
  let next := (readCursor st + 1) % (count : Int)
  (next, some (intSerialize next))

theorem selectStep_bounds (count : Nat) (st : Option String) (h : 0 < count) :
    0 ≤ (selectStep count st).1 ∧ (selectStep count st).1 < count := by
  unfold selectStep
  constructor
  · exact Int.emod_nonneg _ (by exact_mod_cast h.ne')
  · exact Int.emod_lt_of_pos _ (by exact_mod_cast h)

/-! ## Directory listing, filtering and sorting

Lines 190 to 197 of src/dogs_git.py. Background candidates are the files
ending in .mp4 or .mov, excluding the fixed outro filename, sorted
lexicographically by Python sorted, which compares strings by code
point. Music candidates are the files ending in .mp3, not sorted. -/

/-- Constant MAIN_VIDEO_DURATION = 12 from line 171. -/
def MAIN_VIDEO_DURATION : ℚ := 12

/-- Constant MUSIC_FOLDER from line 172. -/
def MUSIC_FOLDER : String := "pets_music"

/-- Constant BACKGROUND_FOLDER from line 173. -/
def BACKGROUND_FOLDER : String := "dogs_temp"

/-- Constant OUTRO_FILENAME from line 174. -/
def OUTRO_FILENAME : String := "like_subscribe.mp4"

/-- Python str.endswith on the character lists of the two strings. -/
def strEndsWith (s suffix : String) : Bool :=
  decide (suffix.data.length ≤ s.data.length) &&
    (s.data.drop (s.data.length - suffix.data.length) == suffix.data)

/-- Lexicographic string order by code point, as Python uses to compare
strings. -/
def charListLe : List Char → List Char → Bool
  | [], _ => true
  | _ :: _, [] => false
  | a :: as, b :: bs =>
    if a < b then true else if b < a then false else charListLe as bs

/-- String comparison used by the sorting of the directory listing. -/
def strLe (s t : String) : Bool := charListLe s.data t.data

/-- Insert a string into an already sorted list. -/
def insertSorted (a : String) : List String → List String
  | [] => [a]
  | b :: bs => if strLe a b then a :: b :: bs else b :: insertSorted a bs

/-- Insertion sort over strings, modelling Python sorted on the distinct
filenames of a directory listing. -/
def sortStrings : List String → List String
  | [] => []
  | a :: as => insertSorted a (sortStrings as)

/-! ## The pipeline of generate_video_with_music

The environment carries what the function reads from the filesystem: the
outro clip duration (none when the outro file is missing or unreadable,
in which case the VideoFileClip constructor at line 179 raises and line
184 exits), the two directory listings and the state file content. The
run is parameterised by the random music pick and by whether the final
write_videofile call succeeds, and returns a record of the observable
outcome together with an event trace of handle opens and closes, the
cursor write, the render attempt and output completion. -/

/-- Media handles opened by one run of generate_video_with_music:
the probe clip opened at line 179 to read the outro duration, the music
clip (line 227), the background clip (line 229), the derived normalized
background (line 232), the outro clip (line 263), the auxiliary second
open of the outro file inside the crop argument at line 264, and the
concatenated final clip (line 267). -/
inductive Handle where
  | outroProbe
  | music
  | background
  | mainBg
  | outroMain
  | outroAux
  | finalVid
deriving DecidableEq

/-- Observable events of one run, in program order. -/
inductive Ev where
  | openH : Handle → Ev
  | closeH : Handle → Ev
  | writeState : Ev
  | renderAttempt : Ev
  | outputComplete : Ev
deriving DecidableEq

/-- Exit classification of one run: the sys.exit at line 184 for the
outro, the sys.exit calls at lines 197 and 216 for the media listings,
the re-raised exception of the render step, or normal completion. -/
inductive RunStatus where
  | fatalOutro
  | fatalMedia
  | renderError
  | success
deriving DecidableEq

/-- What the function reads from the filesystem at the start of a run. -/
structure MediaEnv where
  outroDuration : Option ℚ
  musicFiles : List String
  bgFiles : List String
  stateContent : Option String

/-- Observable outcome of one run. -/
structure RunOutcome where
  status : RunStatus
  selectedIndex : Option Int
  selectedPath : Option String
  selectedMusic : Option String
  stateAfter : Option String
  outputComplete : Bool
  events : List Ev
deriving DecidableEq

/-- Music candidates, line 190: files ending in .mp3, in listing order. -/
def availableMusic (env : MediaEnv) : List String :=
  env.musicFiles.filter fun f => strEndsWith f ".mp3"

/-- Background candidates, lines 194 and 195: files ending in .mp4 or
.mov, excluding the outro filename, sorted lexicographically. -/
def availableVideos (env : MediaEnv) : List String :=
  sortStrings (env.bgFiles.filter fun f =>
    (strEndsWith f ".mp4" || strEndsWith f ".mov") && decide (f ≠ OUTRO_FILENAME))

/-- Events of the probe that reads the outro duration, lines 179 to 181. -/
def probeEvents : List Ev := [Ev.openH Handle.outroProbe, Ev.closeH Handle.outroProbe]

/-- Events of the main try block in program order: the cursor write at
lines 211 and 212, the opens at lines 227, 229, 232, 263, 264 and 267,
and the render attempt at line 272. -/
def tryEvents : List Ev :=
  [Ev.writeState, Ev.openH Handle.music, Ev.openH Handle.background,
    Ev.openH Handle.mainBg, Ev.openH Handle.outroMain, Ev.openH Handle.outroAux,
    Ev.openH Handle.finalVid, Ev.renderAttempt]

/-- Events of the finally block at lines 280 to 299: it closes the music
clip, the current background clip, the normalized background, the outro
clip and the final clip, in that order. The auxiliary clip opened at
line 264 is not bound to any name and is never closed. -/
def finallyEvents : List Ev :=
  [Ev.closeH Handle.music, Ev.closeH Handle.background, Ev.closeH Handle.mainBg,
    Ev.closeH Handle.outroMain, Ev.closeH Handle.finalVid]

/-- One run of generate_video_with_music over the environment, modelling
lines 176 to 299 of src/dogs_git.py. musicPick resolves the random.choice
at line 191; renderOk tells whether write_videofile at line 272 succeeds.
A missing outro exits at line 184 before anything else. An empty music
candidate list makes random.choice raise IndexError, caught at line 215,
before the background listing is used. An empty background candidate
list exits at line 197 before the state file is read. The selected index
is always within range (selectStep_bounds), so the list indexing at line
210 cannot raise and the getD defaults below are unreachable; the state
write at line 211 happens before any clip of the try block is opened. -/
def runPipeline (env : MediaEnv) (musicPick : Nat) (renderOk : Bool) : RunOutcome :=
  if env.outroDuration = none then
    ⟨RunStatus.fatalOutro, none, none, none, env.stateContent, false, []⟩
  else if availableMusic env = [] then
    ⟨RunStatus.fatalMedia, none, none, none, env.stateContent, false, probeEvents⟩
  else if availableVideos env = [] then
    ⟨RunStatus.fatalMedia, none, none, none, env.stateContent, false, probeEvents⟩
  else
    let music := availableMusic env
    let vids := availableVideos env
    let sel := selectStep vids.length env.stateContent
    ⟨if renderOk then RunStatus.success else RunStatus.renderError,
      some sel.1,
      some (BACKGROUND_FOLDER ++ "/" ++ vids.getD sel.1.toNat ""),
      some (MUSIC_FOLDER ++ "/" ++ music.getD (musicPick % music.length) ""),
      sel.2,
      renderOk,
      probeEvents ++ tryEvents ++
        (if renderOk then [Ev.outputComplete] else []) ++ finallyEvents⟩

/-- State file content after n sequential runs over a fixed environment,
each run seeing the state the previous run left behind. -/
def pipelineState (env : MediaEnv) (musicPick : Nat) (renderOk : Bool) :
    Nat → Option String
  | 0 => env.stateContent
  | n + 1 =>
    (runPipeline { env with
      stateContent := pipelineState env musicPick renderOk n } musicPick renderOk).stateAfter

/-- Outcome of the run with index n (0-indexed) in a sequence of runs. -/
def pipelineRun (env : MediaEnv) (musicPick : Nat) (renderOk : Bool) (n : Nat) :
    RunOutcome :=
  runPipeline { env with
    stateContent := pipelineState env musicPick renderOk n } musicPick renderOk

/-! ## Clip model for the moviepy operations used by the source

A video clip carries its frame width and height, its duration, and a
time mapping from output time to the time of the source material it
shows, so that looping (which revisits source times) is distinguishable
from stretching (which rescales them). Durations and sizes are exact
rationals; moviepy rounds pixel sizes to integers, which no claim here
depends on. -/

structure VideoClip where
  w : ℚ
  h : ℚ
  dur : ℚ
  srcTime : ℚ → ℚ

/-- Remainder of a by b with a nonnegative result for positive b, the
time wraparound of a looped clip. -/
def ratMod (a b : ℚ) : ℚ := a - b * ⌊a / b⌋

/-- moviepy loop(duration=D): the clip plays its own material cyclically
until D; source times wrap at the native duration, nothing is rescaled. -/
def loopTo (D : ℚ) (c : VideoClip) : VideoClip :=
  ⟨c.w, c.h, D, fun t => c.srcTime (ratMod t c.dur)⟩

/-- moviepy subclip(0, T). -/
def subclipTo (T : ℚ) (c : VideoClip) : VideoClip :=
  ⟨c.w, c.h, T, c.srcTime⟩

/-- moviepy resize(height=H): scales the width by the same factor. -/
def resizeToHeight (H : ℚ) (c : VideoClip) : VideoClip :=
  ⟨c.w * H / c.h, H, c.dur, c.srcTime⟩

/-- moviepy crop(x_center=xc, width=W): keeps the horizontal band of
width W centered at coordinate xc of the clip it is applied to. The
resulting frame has width W; which band was kept is recorded by the
center argument at the call sites (mainBackgroundXCenter below). -/
def cropWidth (_xc W : ℚ) (c : VideoClip) : VideoClip :=
  ⟨W, c.h, c.dur, c.srcTime⟩

/-- moviepy set_duration on a video clip. -/
def setDurationV (T : ℚ) (c : VideoClip) : VideoClip :=
  ⟨c.w, c.h, T, c.srcTime⟩

/-- moviepy concatenate_videoclips of two clips. -/
def concatClips (a b : VideoClip) : VideoClip :=
  ⟨a.w, a.h, a.dur + b.dur,
    fun t => if t < a.dur then a.srcTime t else b.srcTime (t - a.dur)⟩

/-- Lines 230 and 231: the background clip is looped to the main
duration when it is shorter, and left alone otherwise. -/
def loopedBackground (bg : VideoClip) : VideoClip :=
  if bg.dur < MAIN_VIDEO_DURATION then loopTo MAIN_VIDEO_DURATION bg else bg

/-- The x_center argument of the crop at lines 232 and 233. The code
passes background_clip.w / 2, the width of the clip variable before the
resize in the method chain, so the center is half the original width. -/
def mainBackgroundXCenter (bg : VideoClip) : ℚ :=
  (loopedBackground bg).w / 2

/-- Lines 232 and 233: subclip(0, 12), then resize(height=1920), then
crop(x_center=background_clip.w/2, width=1080). -/
def mainBackground (bg : VideoClip) : VideoClip :=
  cropWidth (mainBackgroundXCenter bg) 1080
    (resizeToHeight 1920 (subclipTo MAIN_VIDEO_DURATION (loopedBackground bg)))

/-- Lines 258 and 259: the composite of the background with the heading
and caption layers, with set_duration(MAIN_VIDEO_DURATION); the
composite takes its frame size from its first clip. -/
def mainVideo (bg : VideoClip) : VideoClip :=
  setDurationV MAIN_VIDEO_DURATION (mainBackground bg)

/-- Lines 263 and 264: the outro is resized to height 1920 and cropped
to width 1080 centered at half the width of a second open of the same
file, which is the original outro width. -/
def normalizeOutro (o : VideoClip) : VideoClip :=
  cropWidth (o.w / 2) 1080 (resizeToHeight 1920 o)

/-- Line 267: the final clip concatenates the main video and the
normalized outro; attaching the audio at line 268 leaves the duration
unchanged. -/
def finalVideo (bg o : VideoClip) : VideoClip :=
  concatClips (mainVideo bg) (normalizeOutro o)

/-! ## Audio model for the music track

An audio track carries its duration and its sample function; times are
sample indices. A file backed clip decodes its own samples below its
native end and the moviepy reader returns zeros past the end of file. -/

structure AudioTrack where
  dur : Nat
  samp : Nat → Int

/-- moviepy AudioFileClip on a file of native duration d with decoded
samples raw: the reader yields raw below d and zeros past the end. -/
def audioFileClip (d : Nat) (raw : Nat → Int) : AudioTrack :=
  ⟨d, fun t => if t < d then raw t else 0⟩

/-- moviepy set_duration on an audio clip: only the duration attribute
changes, the sample function is untouched. -/
def setAudioDuration (T : Nat) (c : AudioTrack) : AudioTrack :=
  ⟨T, c.samp⟩

/-- Line 227: the audio preparation of the source is
AudioFileClip(chosen_music_path).set_duration(TOTAL_DURATION). -/
def prepareTrack (d : Nat) (raw : Nat → Int) (T : Nat) : AudioTrack :=
  setAudioDuration T (audioFileClip d raw)

/-- Modelled from the spec: the prepareTrack the specification
describes, which loops the track when the native duration is below the
total duration and trims it otherwise. Stated only as the refinement
comparison target for the audio preparation of line 227. -/
def prepareTrackLooped (d : Nat) (raw : Nat → Int) (T : Nat) : AudioTrack :=
  if d < T then ⟨T, fun t => (audioFileClip d raw).samp (t % d)⟩
  else ⟨T, (audioFileClip d raw).samp⟩

theorem runPipeline_good (env : MediaEnv) (musicPick : Nat) (renderOk : Bool)
    (h1 : env.outroDuration ≠ none) (h2 : availableMusic env ≠ [])
    (h3 : availableVideos env ≠ []) :
    runPipeline env musicPick renderOk =
      ⟨if renderOk then RunStatus.success else RunStatus.renderError,
        some (selectStep (availableVideos env).length env.stateContent).1,
        some (BACKGROUND_FOLDER ++ "/" ++ (availableVideos env).getD
          (selectStep (availableVideos env).length env.stateContent).1.toNat ""),
        some (MUSIC_FOLDER ++ "/" ++ (availableMusic env).getD
          (musicPick % (availableMusic env).length) ""),
        (selectStep (availableVideos env).length env.stateContent).2,
        renderOk,
        probeEvents ++ tryEvents ++
          (if renderOk then [Ev.outputComplete] else []) ++ finallyEvents⟩ := by
  unfold runPipeline
  rw [if_neg h1, if_neg h2, if_neg h3]

theorem emod_succ (a K : Int) : (a % K + 1) % K = (a + 1) % K := by
  have h := Int.ediv_add_emod a K
  have h2 : a % K + 1 + K * (a / K) = a + 1 := by omega
  rw [← h2, Int.add_mul_emod_self_left]

theorem selectStep_state (count : Nat) (st : Option String) :
    (selectStep count st).2 = some (intSerialize (selectStep count st).1) := rfl

theorem selectStep_roundtrip (count : Nat) (hc : 0 < count) (a : Int) :
    (selectStep count (some (intSerialize (a % count)))).1 = (a + 1) % count := by
  have hnn : 0 ≤ a % (count : Int) :=
    Int.emod_nonneg a (by exact_mod_cast hc.ne')
  unfold selectStep
  rw [readCursor_intSerialize _ hnn, emod_succ]

@[simp] theorem availableMusic_setState (env : MediaEnv) (s : Option String) :
    availableMusic { env with stateContent := s } = availableMusic env := rfl

@[simp] theorem availableVideos_setState (env : MediaEnv) (s : Option String) :
    availableVideos { env with stateContent := s } = availableVideos env := rfl

@[simp] theorem stateContent_setState (env : MediaEnv) (s : Option String) :
    ({ env with stateContent := s } : MediaEnv).stateContent = s := rfl

theorem runPipeline_stateAfter (env : MediaEnv) (pick : Nat) (rOk : Bool)
    (h1 : env.outroDuration ≠ none) (h2 : availableMusic env ≠ [])
    (h3 : availableVideos env ≠ []) :
    (runPipeline env pick rOk).stateAfter =
      (selectStep (availableVideos env).length env.stateContent).2 := by
  rw [runPipeline_good env pick rOk h1 h2 h3]

theorem runPipeline_selectedIndex (env : MediaEnv) (pick : Nat) (rOk : Bool)
    (h1 : env.outroDuration ≠ none) (h2 : availableMusic env ≠ [])
    (h3 : availableVideos env ≠ []) :
    (runPipeline env pick rOk).selectedIndex =
      some (selectStep (availableVideos env).length env.stateContent).1 := by
  rw [runPipeline_good env pick rOk h1 h2 h3]

theorem runPipeline_selectedPath (env : MediaEnv) (pick : Nat) (rOk : Bool)
    (h1 : env.outroDuration ≠ none) (h2 : availableMusic env ≠ [])
    (h3 : availableVideos env ≠ []) :
    (runPipeline env pick rOk).selectedPath =
      some (BACKGROUND_FOLDER ++ "/" ++ (availableVideos env).getD
        (selectStep (availableVideos env).length env.stateContent).1.toNat "") := by
  rw [runPipeline_good env pick rOk h1 h2 h3]

theorem runPipeline_status (env : MediaEnv) (pick : Nat) (rOk : Bool)
    (h1 : env.outroDuration ≠ none) (h2 : availableMusic env ≠ [])
    (h3 : availableVideos env ≠ []) :
    (runPipeline env pick rOk).status =
      if rOk then RunStatus.success else RunStatus.renderError := by
  rw [runPipeline_good env pick rOk h1 h2 h3]

theorem runPipeline_events (env : MediaEnv) (pick : Nat) (rOk : Bool)
    (h1 : env.outroDuration ≠ none) (h2 : availableMusic env ≠ [])
    (h3 : availableVideos env ≠ []) :
    (runPipeline env pick rOk).events =
      probeEvents ++ tryEvents ++
        (if rOk then [Ev.outputComplete] else []) ++ finallyEvents := by
  rw [runPipeline_good env pick rOk h1 h2 h3]

theorem pipelineState_succ (env : MediaEnv) (pick : Nat) (rOk : Bool)
    (h1 : env.outroDuration ≠ none) (h2 : availableMusic env ≠ [])
    (h3 : availableVideos env ≠ []) (n : Nat) :
    pipelineState env pick rOk (n + 1) =
      (selectStep (availableVideos env).length
        (pipelineState env pick rOk n)).2 := by
  show (runPipeline { env with stateContent := pipelineState env pick rOk n }
    pick rOk).stateAfter = _
  rw [runPipeline_stateAfter
    { env with stateContent := pipelineState env pick rOk n } pick rOk h1 h2 h3]
  rfl

theorem pipelineRun_closed (env : MediaEnv) (pick : Nat) (rOk : Bool)
    (h0 : env.stateContent = none) (h1 : env.outroDuration ≠ none)
    (h2 : availableMusic env ≠ []) (h3 : availableVideos env ≠ [])
    (n : Nat) :
    (pipelineRun env pick rOk n).selectedIndex =
        some ((n : Int) % (availableVideos env).length) ∧
      pipelineState env pick rOk (n + 1) =
        some (intSerialize ((n : Int) % (availableVideos env).length)) := by
  have hK : 0 < (availableVideos env).length := List.length_pos.mpr h3
  induction n with
  | zero =>
    have hst : pipelineState env pick rOk 0 = none := h0
    constructor
    · show (runPipeline { env with stateContent := pipelineState env pick rOk 0 }
        pick rOk).selectedIndex = _
      rw [runPipeline_selectedIndex
        { env with stateContent := pipelineState env pick rOk 0 } pick rOk h1 h2 h3]
      rw [show pipelineState env pick rOk 0 = none from hst]
      show some ((readCursor none + 1) % _) = _
      norm_num [readCursor]
    · rw [pipelineState_succ env pick rOk h1 h2 h3 0, hst, selectStep_state]
      show some (intSerialize ((readCursor none + 1) % _)) = _
      norm_num [readCursor]
  | succ n ih =>
    have hsel : (selectStep (availableVideos env).length
        (pipelineState env pick rOk (n + 1))).1 =
        ((n : Int) + 1) % (availableVideos env).length := by
      rw [ih.2, selectStep_roundtrip _ hK]
    constructor
    · show (runPipeline { env with
        stateContent := pipelineState env pick rOk (n + 1) }
        pick rOk).selectedIndex = _
      rw [runPipeline_selectedIndex { env with
        stateContent := pipelineState env pick rOk (n + 1) } pick rOk h1 h2 h3]
      simp only [availableVideos_setState, stateContent_setState]
      rw [hsel]
      push_cast
      rfl
    · rw [pipelineState_succ env pick rOk h1 h2 h3 (n + 1), selectStep_state, hsel]
      push_cast
      rfl

/-! ## Claims -/

/-- Sample environment: outro present with duration 3, one music file,
three background candidates plus the outro file, no state file. Its
sorted background candidates are a.mp4, b.mp4, c.mov. -/
def envA : MediaEnv :=
  ⟨some 3, ["m.mp3"], ["b.mp4", "a.mp4", "c.mov", "like_subscribe.mp4"], none⟩

/-- Claim C1: for every count K of background video files (sorted
lexicographically, excluding the outro filename) and every sequence of
successful runs starting with no state file, the run with index n
(0-indexed) selects the background asset at sorted index n mod K,
computing next = (cursor + 1) mod K from the persisted cursor and
persisting next before returning: the run outcome carries selected index
n mod K, the path of the asset at that sorted index, and leaves the
state file holding the decimal string of n mod K. -/
theorem c1_cyclic_rotation (env : MediaEnv) (pick : Nat) (n : Nat)
    (h0 : env.stateContent = none) (h1 : env.outroDuration ≠ none)
    (h2 : availableMusic env ≠ []) (h3 : availableVideos env ≠ []) :
    (pipelineRun env pick true n).status = RunStatus.success ∧
    (pipelineRun env pick true n).selectedIndex =
      some ((n : Int) % (availableVideos env).length) ∧
    (pipelineRun env pick true n).selectedPath =
      some (BACKGROUND_FOLDER ++ "/" ++ (availableVideos env).getD
        ((n : Int) % (availableVideos env).length).toNat "") ∧
    (pipelineRun env pick true n).stateAfter =
      some (intSerialize ((n : Int) % (availableVideos env).length)) := by
  have hc := pipelineRun_closed env pick true h0 h1 h2 h3 n
  have hidx : (selectStep (availableVideos env).length
      (pipelineState env pick true n)).1 =
      (n : Int) % (availableVideos env).length := by
    have h := hc.1
    unfold pipelineRun at h
    rw [runPipeline_selectedIndex { env with
      stateContent := pipelineState env pick true n } pick true h1 h2 h3] at h
    simpa using h
  refine ⟨?_, hc.1, ?_, ?_⟩
  · unfold pipelineRun
    rw [runPipeline_status { env with
      stateContent := pipelineState env pick true n } pick true h1 h2 h3]
    rfl
  · unfold pipelineRun
    rw [runPipeline_selectedPath { env with
      stateContent := pipelineState env pick true n } pick true h1 h2 h3]
    simp only [availableVideos_setState, stateContent_setState]
    rw [hidx]
  · show pipelineState env pick true (n + 1) = _
    exact hc.2

/-- Witness for C1: in the sample environment with three background
candidates, run index 4 selects sorted index 4 mod 3 = 1, the file
b.mp4, and persists 1. -/
theorem c1_cyclic_rotation_witness :
    (pipelineRun envA 0 true 4).status = RunStatus.success ∧
    (pipelineRun envA 0 true 4).selectedIndex = some 1 ∧
    (pipelineRun envA 0 true 4).selectedPath = some "dogs_temp/b.mp4" ∧
    (pipelineRun envA 0 true 4).stateAfter = some "1" := by
  have h := c1_cyclic_rotation envA 0 4 rfl (by decide) (by decide) (by decide)
  refine ⟨h.1, ?_, ?_, ?_⟩
  · rw [h.2.1]; decide
  · rw [h.2.2.1]; decide
  · rw [h.2.2.2]; decide

/-- Claim C8: in every run that completes asset selection, the advanced
cursor is written to the state file strictly before the render step is
attempted (a writeState event precedes the first renderAttempt event in
the trace), and the written state holds the advanced cursor whether or
not the render succeeds, so a render failure still advances rotation. -/
theorem c8_persist_before_render (env : MediaEnv) (pick : Nat) (rOk : Bool)
    (h1 : env.outroDuration ≠ none) (h2 : availableMusic env ≠ [])
    (h3 : availableVideos env ≠ []) :
    (runPipeline env pick rOk).stateAfter =
      some (intSerialize (selectStep (availableVideos env).length
        env.stateContent).1) ∧
    Ev.writeState ∈ ((runPipeline env pick rOk).events.takeWhile
      fun e => !(e == Ev.renderAttempt)) ∧
    Ev.renderAttempt ∈ (runPipeline env pick rOk).events ∧
    (rOk = false → (runPipeline env pick rOk).status = RunStatus.renderError) := by
  rw [runPipeline_stateAfter env pick rOk h1 h2 h3,
    runPipeline_events env pick rOk h1 h2 h3,
    runPipeline_status env pick rOk h1 h2 h3, selectStep_state]
  cases rOk with
  | false => exact ⟨rfl, by decide, by decide, fun _ => rfl⟩
  | true => exact ⟨rfl, by decide, by decide, fun h => by cases h⟩

/-- Witness for C8: in the sample environment with a failing render, the
state file still ends up holding 0 and the trace shows the write before
the render attempt. -/
theorem c8_persist_before_render_witness :
    (runPipeline envA 0 false).stateAfter = some "0" ∧
    Ev.writeState ∈ ((runPipeline envA 0 false).events.takeWhile
      fun e => !(e == Ev.renderAttempt)) ∧
    Ev.renderAttempt ∈ (runPipeline envA 0 false).events ∧
    (runPipeline envA 0 false).status = RunStatus.renderError := by
  have h := c8_persist_before_render envA 0 false (by decide) (by decide) (by decide)
  refine ⟨?_, h.2.1, h.2.2.1, h.2.2.2 rfl⟩
  rw [h.1]
  decide

/-- Claim C10: after every successful background selection the persisted
cursor value satisfies 0 <= cursor < count, for every possible prior
content of the state file (in particular every integer content, negative
or at or above count) and every positive asset count; the persisted
string is the decimal serialization of the selected index. -/
theorem c10_cursor_in_range (st : Option String) (count : Nat) (h : 0 < count) :
    0 ≤ (selectStep count st).1 ∧ (selectStep count st).1 < count ∧
    (selectStep count st).2 = some (intSerialize (selectStep count st).1) := by
  obtain ⟨hlo, hhi⟩ := selectStep_bounds count st h
  exact ⟨hlo, hhi, rfl⟩

/-- Witness for C10: a stored negative cursor with count 5 still yields
a selected index within range. -/
theorem c10_cursor_in_range_witness :
    0 ≤ (selectStep 5 (some "-17")).1 ∧ (selectStep 5 (some "-17")).1 < 5 ∧
    (selectStep 5 (some "-17")).2 =
      some (intSerialize (selectStep 5 (some "-17")).1) :=
  c10_cursor_in_range (some "-17") 5 (by decide)

/-- Claim C6: reading the persisted cursor returns the stored integer,
and returns -1 whenever the state file is absent, empty, or its content
is not parseable as an integer; readCursor is a total function, so none
of these conditions raise, and the first selection after a missing or
corrupt state file yields index 0. -/
theorem c6_read_cursor (s : String) (n : Int) (count : Nat)
    (hs : pyIntParse s = some n) :
    readCursor none = -1 ∧
    readCursor (some "") = -1 ∧
    (∀ t : String, pyIntParse t = none → readCursor (some t) = -1) ∧
    readCursor (some s) = n ∧
    (selectStep count none).1 = 0 ∧
    (∀ t : String, pyIntParse t = none → (selectStep count (some t)).1 = 0) := by
  have hreadbad : ∀ t : String, pyIntParse t = none → readCursor (some t) = -1 := by
    intro t ht
    simp only [readCursor]
    by_cases he : t = ""
    · rw [if_pos he]
    · rw [if_neg he, ht]
  have hsel0 : ∀ st : Option String, readCursor st = -1 →
      (selectStep count st).1 = 0 := by
    intro st hst
    unfold selectStep
    rw [hst]
    simp
  refine ⟨rfl, rfl, hreadbad, ?_, hsel0 none rfl,
    fun t ht => hsel0 (some t) (hreadbad t ht)⟩
  have he : s ≠ "" := by
    intro h
    rw [h, show pyIntParse "" = none from rfl] at hs
    cases hs
  simp only [readCursor]
  rw [if_neg he, hs]

/-- Witness for C6: reading the decimal string 42 gives 42; absent,
empty and corrupt contents give -1, and the selection that follows a
corrupt content picks index 0 out of 7. -/
theorem c6_read_cursor_witness :
    readCursor none = -1 ∧
    readCursor (some "") = -1 ∧
    readCursor (some "oops") = -1 ∧
    readCursor (some "42") = 42 ∧
    (selectStep 7 none).1 = 0 ∧
    (selectStep 7 (some "oops")).1 = 0 := by
  have h := c6_read_cursor "42" 42 7 (by decide)
  exact ⟨h.1, h.2.1, h.2.2.1 "oops" (by decide), h.2.2.2.1,
    h.2.2.2.2.1, h.2.2.2.2.2 "oops" (by decide)⟩

/-- Sample environment whose outro file is missing. -/
def envB : MediaEnv := ⟨none, ["m.mp3"], ["a.mp4", "like_subscribe.mp4"], some "5"⟩

/-- Claim C7: whenever the outro asset is missing or unreadable, the
background candidate list is empty, or the music candidate list is
empty, the pipeline aborts fatally before any render attempt, produces
no output file, and leaves the persisted rotation cursor unchanged; the
cursor write event never occurs on any of these error paths. -/
theorem c7_config_fatal (env : MediaEnv) (pick : Nat) (rOk : Bool)
    (h : env.outroDuration = none ∨ availableMusic env = [] ∨
      availableVideos env = []) :
    ((runPipeline env pick rOk).status = RunStatus.fatalOutro ∨
      (runPipeline env pick rOk).status = RunStatus.fatalMedia) ∧
    (runPipeline env pick rOk).stateAfter = env.stateContent ∧
    (runPipeline env pick rOk).outputComplete = false ∧
    Ev.renderAttempt ∉ (runPipeline env pick rOk).events ∧
    Ev.writeState ∉ (runPipeline env pick rOk).events := by
  unfold runPipeline
  by_cases ho : env.outroDuration = none
  · rw [if_pos ho]
    refine ⟨Or.inl rfl, rfl, rfl, ?_, ?_⟩
    · show Ev.renderAttempt ∉ ([] : List Ev)
      decide
    · show Ev.writeState ∉ ([] : List Ev)
      decide
  · rw [if_neg ho]
    by_cases hm : availableMusic env = []
    · rw [if_pos hm]
      refine ⟨Or.inr rfl, rfl, rfl, ?_, ?_⟩
      · show Ev.renderAttempt ∉ probeEvents
        decide
      · show Ev.writeState ∉ probeEvents
        decide
    · rw [if_neg hm]
      have hv : availableVideos env = [] := by tauto
      rw [if_pos hv]
      refine ⟨Or.inr rfl, rfl, rfl, ?_, ?_⟩
      · show Ev.renderAttempt ∉ probeEvents
        decide
      · show Ev.writeState ∉ probeEvents
        decide

/-- Witness for C7: with the outro missing, the run is fatal, keeps the
stored cursor 5, produces no output, and neither renders nor writes. -/
theorem c7_config_fatal_witness :
    ((runPipeline envB 0 true).status = RunStatus.fatalOutro ∨
      (runPipeline envB 0 true).status = RunStatus.fatalMedia) ∧
    (runPipeline envB 0 true).stateAfter = envB.stateContent ∧
    (runPipeline envB 0 true).outputComplete = false ∧
    Ev.renderAttempt ∉ (runPipeline envB 0 true).events ∧
    Ev.writeState ∉ (runPipeline envB 0 true).events :=
  c7_config_fatal envB 0 true (Or.inl rfl)

/-- Counterexample to claim C3 as stated: the persisted cursor 3 is out
of range for asset count 3 (3 is at or above the count), yet selection
computes (3 + 1) mod 3 = 1, not the index 0 an absent state file
yields, so an out-of-range value is not treated as absent. -/
theorem c3_counterexample :
    readCursor (some "3") = 3 ∧
    (selectStep 3 (some "3")).1 = 1 ∧
    (selectStep 3 none).1 = 0 ∧
    (selectStep 3 (some "3")).1 ≠ (selectStep 3 none).1 := by decide

/-- Claim C3 amended: an out-of-range persisted cursor is not reset; the
code computes (cursor + 1) mod count with Python floor modulo directly,
which always lands in range for a positive count, and the result agrees
with the absent-file selection (index 0) exactly when count divides
cursor + 1. Only a missing, empty, or unparseable state file is treated
as cursor -1. -/
theorem c3_out_of_range_cursor (st : Option String) (count : Nat) (h : 0 < count) :
    0 ≤ (selectStep count st).1 ∧ (selectStep count st).1 < count ∧
    ((selectStep count st).1 = (selectStep count none).1 ↔
      (count : Int) ∣ (readCursor st + 1)) := by
  obtain ⟨hlo, hhi⟩ := selectStep_bounds count st h
  refine ⟨hlo, hhi, ?_⟩
  have h0 : (selectStep count none).1 = 0 := by
    unfold selectStep readCursor
    simp
  rw [h0]
  show (readCursor st + 1) % (count : Int) = 0 ↔ _
  exact ⟨Int.dvd_of_emod_eq_zero, Int.emod_eq_zero_of_dvd⟩

/-- Witness for C3 amended: the out-of-range stored cursor 7 with count
3 selects an in-range index, equal to the absent-file index exactly
when 3 divides 8. -/
theorem c3_out_of_range_cursor_witness :
    0 ≤ (selectStep 3 (some "7")).1 ∧ (selectStep 3 (some "7")).1 < 3 ∧
    ((selectStep 3 (some "7")).1 = (selectStep 3 none).1 ↔
      (3 : Int) ∣ (readCursor (some "7") + 1)) :=
  c3_out_of_range_cursor (some "7") 3 (by decide)

/-- Counterexample to claim C2 as stated: with native duration 1 below
total duration 2 and a constant sample of 1, the prepared track is
silent at time 1 while a looped track would repeat the sample there, so
the code does not loop the track when d < T. -/
theorem c2_counterexample :
    (1 : Nat) < 2 ∧
    (prepareTrack 1 (fun _ => 1) 2).dur = 2 ∧
    (prepareTrack 1 (fun _ => 1) 2).samp 1 = 0 ∧
    (prepareTrackLooped 1 (fun _ => 1) 2).samp 1 = 1 := by decide

/-- Claim C2 amended: preparing the audio track always yields duration
exactly T; when d is at least T the samples below T are the first T
units of the source, and every sample at or past the native end d is
silence (zero) rather than a loop of the track. -/
theorem c2_prepare_track (d T : Nat) (raw : Nat → Int) :
    (prepareTrack d raw T).dur = T ∧
    (∀ t, t < T → T ≤ d → (prepareTrack d raw T).samp t = raw t) ∧
    (∀ t, d ≤ t → (prepareTrack d raw T).samp t = 0) := by
  refine ⟨rfl, ?_, ?_⟩
  · intro t ht hTd
    show (if t < d then raw t else 0) = raw t
    rw [if_pos (by omega)]
  · intro t hdt
    show (if t < d then raw t else 0) = 0
    rw [if_neg (by omega)]

/-- Witness for C2 amended: a source of duration 3 trimmed to total 2
keeps its sample at time 1; a source of duration 1 stretched to total 2
is silent at time 1. -/
theorem c2_prepare_track_witness :
    (prepareTrack 3 (fun t => (t : Int) + 5) 2).dur = 2 ∧
    (prepareTrack 3 (fun t => (t : Int) + 5) 2).samp 1 = 6 ∧
    (prepareTrack 1 (fun t => (t : Int) + 5) 2).samp 1 = 0 := by
  have h1 := c2_prepare_track 3 2 fun t => (t : Int) + 5
  have h2 := c2_prepare_track 1 2 fun t => (t : Int) + 5
  refine ⟨h1.1, ?_, h2.2.2 1 (by decide)⟩
  rw [h1.2.1 1 (by decide) (by decide)]
  decide

/-- Counterexample to claim C4 as stated: a landscape source of width
1920 and height 1080 is resized to height 1920 with width 10240 divided
by 3, whose horizontal midpoint is 5120 divided by 3, yet the crop is
centered at 960, half the original width, so the crop is not centered
on the resized clip. -/
theorem c4_counterexample :
    mainBackgroundXCenter ⟨1920, 1080, 20, fun t => t⟩ = 960 ∧
    (resizeToHeight 1920 (subclipTo MAIN_VIDEO_DURATION
      (loopedBackground ⟨1920, 1080, 20, fun t => t⟩))).w / 2 = 5120 / 3 ∧
    (960 : ℚ) ≠ 5120 / 3 := by
  have hloop : loopedBackground ⟨1920, 1080, 20, fun t => t⟩ =
      ⟨1920, 1080, 20, fun t => t⟩ := by
    unfold loopedBackground
    rw [if_neg (by norm_num [MAIN_VIDEO_DURATION])]
  refine ⟨?_, ?_, by norm_num⟩
  · unfold mainBackgroundXCenter
    rw [hloop]
    norm_num
  · rw [hloop]
    show (1920 * 1920 / 1080 : ℚ) / 2 = 5120 / 3
    norm_num

theorem loopedBackground_w (bg : VideoClip) : (loopedBackground bg).w = bg.w := by
  unfold loopedBackground
  split <;> rfl

theorem loopedBackground_h (bg : VideoClip) : (loopedBackground bg).h = bg.h := by
  unfold loopedBackground
  split <;> rfl

/-- Claim C4 amended: normalization first loops the background clip
without stretching when its duration is below the main segment duration,
then resizes to height 1920, then crops horizontally to width 1080; but
the crop is centered at half the original clip width, which coincides
with the resized clip midpoint exactly when the source height is
already 1920 (or the width is zero). -/
theorem c4_normalize_background (bg : VideoClip) (hh : bg.h ≠ 0) :
    (mainBackground bg).w = 1080 ∧
    (mainBackground bg).h = 1920 ∧
    (mainBackground bg).dur = MAIN_VIDEO_DURATION ∧
    mainBackgroundXCenter bg = bg.w / 2 ∧
    (bg.dur < MAIN_VIDEO_DURATION →
      ∀ t, (mainBackground bg).srcTime t = bg.srcTime (ratMod t bg.dur)) ∧
    (MAIN_VIDEO_DURATION ≤ bg.dur → (mainBackground bg).srcTime = bg.srcTime) ∧
    (mainBackgroundXCenter bg = (resizeToHeight 1920 (subclipTo MAIN_VIDEO_DURATION
        (loopedBackground bg))).w / 2 ↔ bg.w = 0 ∨ bg.h = 1920) := by
  refine ⟨rfl, rfl, rfl, ?_, ?_, ?_, ?_⟩
  · show (loopedBackground bg).w / 2 = bg.w / 2
    rw [loopedBackground_w]
  · intro hlt t
    show (loopedBackground bg).srcTime t = _
    unfold loopedBackground
    rw [if_pos hlt]
    rfl
  · intro hge
    show (loopedBackground bg).srcTime = _
    unfold loopedBackground
    rw [if_neg (not_lt.mpr hge)]
  · show (loopedBackground bg).w / 2 =
      (loopedBackground bg).w * 1920 / (loopedBackground bg).h / 2 ↔ _
    rw [loopedBackground_w, loopedBackground_h]
    constructor
    · intro hEq
      have h3 := congrArg (fun x : ℚ => x * 2 * bg.h) hEq
      simp only [] at h3
      rw [div_mul_cancel₀ _ (two_ne_zero : (2 : ℚ) ≠ 0),
        div_mul_cancel₀ _ (two_ne_zero : (2 : ℚ) ≠ 0),
        div_mul_cancel₀ _ hh] at h3
      rcases mul_eq_mul_left_iff.mp h3 with hcase | hcase
      · exact Or.inr hcase
      · exact Or.inl hcase
    · intro hor
      rcases hor with hcase | hcase
      · rw [hcase]
        simp
      · rw [hcase, mul_div_assoc]
        norm_num

/-- Witness for C4 amended: a portrait source of width 1080 and height
1920 is cropped at center 540, which is also the resized midpoint, and
the normalized clip has frame 1080 by 1920 and duration 12. -/
theorem c4_normalize_background_witness :
    (mainBackground ⟨1080, 1920, 20, fun t => t⟩).w = 1080 ∧
    (mainBackground ⟨1080, 1920, 20, fun t => t⟩).dur = MAIN_VIDEO_DURATION ∧
    mainBackgroundXCenter ⟨1080, 1920, 20, fun t => t⟩ = 540 ∧
    (mainBackgroundXCenter ⟨1080, 1920, 20, fun t => t⟩ =
      (resizeToHeight 1920 (subclipTo MAIN_VIDEO_DURATION
        (loopedBackground ⟨1080, 1920, 20, fun t => t⟩))).w / 2) := by
  have h := c4_normalize_background ⟨1080, 1920, 20, fun t => t⟩ (by norm_num)
  refine ⟨h.1, h.2.2.1, ?_, h.2.2.2.2.2.2.mpr (Or.inr rfl)⟩
  rw [h.2.2.2.1]
  norm_num

/-- Claim C5, refuted as a bug in the code against its own stated
cleanup intent: on a successful run the code opens a second clip on the
outro file at line 264 only to read its width, the finally block at
lines 280 to 299 closes the music, background, normalized background,
outro and final clips, but no close for the auxiliary clip exists on
any path, so not every media handle opened for the run is released. -/
theorem c5_handle_leak :
    (runPipeline envA 0 true).status = RunStatus.success ∧
    Ev.closeH Handle.music ∈ (runPipeline envA 0 true).events ∧
    Ev.closeH Handle.background ∈ (runPipeline envA 0 true).events ∧
    Ev.closeH Handle.mainBg ∈ (runPipeline envA 0 true).events ∧
    Ev.closeH Handle.outroMain ∈ (runPipeline envA 0 true).events ∧
    Ev.closeH Handle.finalVid ∈ (runPipeline envA 0 true).events ∧
    Ev.openH Handle.outroAux ∈ (runPipeline envA 0 true).events ∧
    Ev.closeH Handle.outroAux ∉ (runPipeline envA 0 true).events := by decide

/-- Claim C9: for every outro asset of any duration, the duration of
the final timeline after appending the outro equals the main segment
duration 12 plus the outro duration discovered at run time, which is
the duration of the produced output since write_videofile renders the
final clip in full. -/
theorem c9_total_duration (bg o : VideoClip) :
    (finalVideo bg o).dur = MAIN_VIDEO_DURATION + o.dur := by
  simp [finalVideo, concatClips, mainVideo, setDurationV, normalizeOutro,
    cropWidth, resizeToHeight]

end DogsVid
